import Mathlib

/-!
Shallow embedding of the Udyam Registration Portal's validation/schema
subsystem (backend `server.ts` + `services/validation.service.ts`, shared
`schema/src/index.ts`, scraper `scrape-step2.ts`, frontend `page.tsx`
schema fetch).  Pure functions of the TypeScript source are translated to
executable Lean definitions; JSON request bodies are modelled as
association lists of JSON values.
-/

namespace Udyam

/-- A JSON value, as far as the validation subsystem inspects one:
strings, booleans, numbers, null, or anything else (arrays/objects are
never inspected field-wise by the validators, so they are collapsed
into `other`). -/
inductive JValue where
  | str (s : String)
  | bool (b : Bool)
  | num (n : Int)
  | null
  | other
deriving DecidableEq, Repr

/-- A JSON object (request body): ordered key/value pairs.  Lookup takes
the first binding, matching JavaScript object semantics where keys are
unique. -/
def JRecord := List (String × JValue)
deriving DecidableEq, Repr

/-- Property lookup on a JSON object; `none` models an absent key
(`undefined` in JavaScript). -/
def jget (r : JRecord) (k : String) : Option JValue :=
  match r.find? (fun p => p.1 = k) with
  | some p => some p.2
  | none => none

/-! ### Pattern registry (`server.ts` lines 44-48 / `validation.service.ts`)

Each JS regex is anchored (`^...$`) with no flags, so `test` decides
whole-string membership; each is translated to a decidable predicate on
the string's character list. -/

/-- Character class `[0-9]`. -/
def isDigitChar (c : Char) : Bool := '0' ≤ c && c ≤ '9'

/-- Character class `[A-Z]`. -/
def isUpperChar (c : Char) : Bool := 'A' ≤ c && c ≤ 'Z'

/-- Source `aadhaarRegex = /^[2-9][0-9]{11}$/`. -/
def aadhaarMatch (s : String) : Bool :=
  match s.data with
  | c :: rest => ('2' ≤ c && c ≤ '9') && rest.length = 11 && rest.all isDigitChar
  | [] => false

/-- Source `panRegex = /^[A-Z]{5}[0-9]{4}[A-Z]{1}$/`. -/
def panMatch (s : String) : Bool :=
  s.data.length = 10
    && (s.data.take 5).all isUpperChar
    && ((s.data.drop 5).take 4).all isDigitChar
    && (s.data.drop 9).all isUpperChar

/-- Source `otpRegex = /^[0-9]{6}$/`. -/
def otpMatch (s : String) : Bool :=
  s.data.length = 6 && s.data.all isDigitChar

/-- Source `pincodeRegex = /^[0-9]{6}$/`. -/
def pincodeMatch (s : String) : Bool :=
  s.data.length = 6 && s.data.all isDigitChar

/-- Source `mobileRegex = /^[6-9][0-9]{9}$/`. -/
def mobileMatch (s : String) : Bool :=
  match s.data with
  | c :: rest => ('6' ≤ c && c ≤ '9') && rest.length = 9 && rest.all isDigitChar
  | [] => false

/-! ### Single-field validators (`ValidationService`)

`validateX (x)` runs `xSchema.parse({ x })`; on a `ZodError` it returns
`{ valid: false, error: errors[0].message }`.  For a string input the only
possible issue is the regex mismatch, whose message is the one attached to
`.regex(...)` in the schema. -/

/-- Result shape of the `ValidationService.validateX` helpers:
`{ valid: true }` or `{ valid: false, error: message }`. -/
structure ValidationResult where
  valid : Bool
  error : Option String
deriving DecidableEq, Repr

/-- Method `ValidationService.validateAadhaar` on a string argument. -/
def validateAadhaar (aadhaarNumber : String) : ValidationResult :=
  if aadhaarMatch aadhaarNumber then ⟨true, none⟩
  else ⟨false, some "Invalid Aadhaar format. Must be 12 digits starting with 2-9"⟩

/-- Method `ValidationService.validatePAN` on a string argument. -/
def validatePAN (panNumber : String) : ValidationResult :=
  if panMatch panNumber then ⟨true, none⟩
  else ⟨false, some "Invalid PAN format. Expected: ABCDE1234F"⟩

/-- Method `ValidationService.validateOTP` on a string argument. -/
def validateOTP (otp : String) : ValidationResult :=
  if otpMatch otp then ⟨true, none⟩
  else ⟨false, some "Invalid OTP format. Must be 6 digits"⟩

/-- Method `ValidationService.validatePincode` on a string argument. -/
def validatePincode (pincode : String) : ValidationResult :=
  if pincodeMatch pincode then ⟨true, none⟩
  else ⟨false, some "Invalid PIN code format. Must be 6 digits"⟩

/-! ### Sanitizer (`ValidationService.sanitizeInput`)

The source applies, to every string value, three global regex
replacements followed by a trim:

  value.replace(script-element-regex, "")   -- whole script elements
       .replace(/javascript:/gi, "")
       .replace(on-word-equals-regex, "")   -- on attribute assignments
       .trim()

Each regex is deterministic once analysed (no observable backtracking),
so each is translated to a leftmost-match scanner; the global flag is a
single left-to-right pass of non-overlapping matches over the original
string. -/

/-- JavaScript word character class (backslash-w): `[A-Za-z0-9_]`. -/
def isWordChar (c : Char) : Bool :=
  isDigitChar c || isUpperChar c || ('a' ≤ c && c ≤ 'z') || c = '_'

/-- JavaScript whitespace class (backslash-s), restricted to the ASCII
range (the full class also holds Unicode space separators, which do not
occur in this development). -/
def isSpaceChar (c : Char) : Bool :=
  c = ' ' || c = '\t' || c = '\n' || c = '\r' || c = '\x0b' || c = '\x0c'

/-- ASCII lower-casing, for the `i` regex flag. -/
def lowerChar (c : Char) : Char :=
  if isUpperChar c then Char.ofNat (c.toNat + 32) else c

/-- Case-insensitive literal prefix match: on success returns the input
after the prefix. -/
def ciDrop : List Char → List Char → Option (List Char)
  | [], l => some l
  | _ :: _, [] => none
  | p :: ps, c :: cs => if lowerChar c = lowerChar p then ciDrop ps cs else none

/-- Body scanner of the script-element regex, starting after the
`<script` + word-boundary prefix: repeatedly consume a run of
non-`<` characters, finish when the closing tag is reached, step over
any other `<`, and fail at end of input (the star groups admit no other
outcome because every later alternative demands a `<`).  Fuel bounds the
recursion; each step consumes at least one character. -/
def scriptBody : Nat → List Char → Option (List Char)
  | 0, _ => none
  | fuel + 1, l =>
    let l1 := l.dropWhile (fun c => !(c = '<'))
    match ciDrop "</script>".data l1 with
    | some rest => some rest
    | none =>
      match l1 with
      | '<' :: rest2 => scriptBody fuel rest2
      | _ => none

/-- Leftmost match of the script-element regex at the head of the input:
`<script` (case-insensitive), a word boundary, then the body up to the
closing tag.  Returns the input after the match. -/
def scriptMatchAt (l : List Char) : Option (List Char) :=
  match ciDrop "<script".data l with
  | none => none
  | some rest =>
    match rest with
    | c :: _ => if isWordChar c then none else scriptBody (rest.length + 1) rest
    | [] => scriptBody 1 []

/-- Match of `/javascript:/i` at the head of the input. -/
def jsMatchAt (l : List Char) : Option (List Char) :=
  ciDrop "javascript:".data l

/-- Match of the on-handler regex (`on`, one or more word characters,
optional whitespace, `=`, case-insensitive) at the head of the input.
The word-character run is greedy; giving characters back can never make
the trailing `=` match (a word character is not whitespace and not `=`),
so the scan is deterministic. -/
def onMatchAt (l : List Char) : Option (List Char) :=
  match ciDrop "on".data l with
  | none => none
  | some r =>
    let w := r.takeWhile isWordChar
    if w.isEmpty then none
    else
      match (r.drop w.length).dropWhile isSpaceChar with
      | '=' :: rest => some rest
      | _ => none

/-- Global replace-with-empty: scan left to right, deleting each
leftmost non-overlapping match, in a single pass over the original
string (text formed by a deletion is not rescanned, as in JavaScript
`String.replace` with the `g` flag).  Fuel bounds the recursion; every
matcher used here consumes at least one character on success. -/
def replaceAll (matchAt : List Char → Option (List Char)) : Nat → List Char → List Char
  | 0, l => l
  | fuel + 1, l =>
    match matchAt l with
    | some rest => replaceAll matchAt fuel rest
    | none =>
      match l with
      | [] => []
      | c :: t => c :: replaceAll matchAt fuel t

/-- JavaScript `String.prototype.trim` (ASCII whitespace range). -/
def jsTrim (l : List Char) : List Char :=
  ((l.dropWhile isSpaceChar).reverse.dropWhile isSpaceChar).reverse

/-- The per-string transformation of `ValidationService.sanitizeInput`:
strip script elements, then `javascript:` prefixes, then `on*=`
handler assignments, then trim. -/
def sanitizeString (s : String) : String :=
  let a := replaceAll scriptMatchAt (s.data.length + 1) s.data
  let b := replaceAll jsMatchAt (a.length + 1) a
  let c := replaceAll onMatchAt (b.length + 1) b
  String.mk (jsTrim c)

/-- Per-value sanitization: strings are rewritten, every other value
passes through unchanged. -/
def sanitizeValue : JValue → JValue
  | .str s => .str (sanitizeString s)
  | v => v

/-- Method `ValidationService.sanitizeInput`: rebuild the record with every
string value sanitized, other values copied as-is. -/
def sanitizeInput (r : JRecord) : JRecord :=
  r.map (fun p => (p.1, sanitizeValue p.2))

/-! ### Submission validation

Two zod object schemas validate a whole submission record:

* the inline schema of the `POST /submit` handler (`server.ts`
  lines 186-200), and
* `submissionSchema` of `validation.service.ts` (lines 288-302), used by
  `ValidationService.validateSubmission`; it differs from the inline one
  only by `.max(100, "Name too long")` on `entrepreneurName` and
  `panHolderName`.

zod object parsing checks every declared key in declaration order and
aggregates all issues; unknown keys are silently stripped.  A missing
key yields a `Required` issue, a present value of the wrong type an
invalid-type issue (zod's fuller "Expected string, received ..." text is
abbreviated here; no claim depends on it), and a well-typed value that
fails `.regex` / `.min` / `.refine` yields the custom message attached
in the source.  Each issue carries the field path. -/

/-- One zod issue: the field path (always a single key here) and the
message. -/
structure Issue where
  path : String
  message : String
deriving DecidableEq, Repr

/-- Check `z.string().regex(pat, msg)` applied to the value at key `k`. -/
def checkRegexField (k : String) (p : String → Bool) (msg : String) (r : JRecord) :
    List Issue :=
  match jget r k with
  | none => [⟨k, "Required"⟩]
  | some (.str s) => if p s then [] else [⟨k, msg⟩]
  | some _ => [⟨k, "Invalid type"⟩]

/-- Check `z.string().min(1, msg)` applied to the value at key `k`. -/
def checkMin1Field (k msg : String) (r : JRecord) : List Issue :=
  match jget r k with
  | none => [⟨k, "Required"⟩]
  | some (.str s) => if s.length = 0 then [⟨k, msg⟩] else []
  | some _ => [⟨k, "Invalid type"⟩]

/-- Check `z.string().min(1, msg).max(100, "Name too long")` applied to the
value at key `k`. -/
def checkMin1Max100Field (k msg : String) (r : JRecord) : List Issue :=
  match jget r k with
  | none => [⟨k, "Required"⟩]
  | some (.str s) =>
      if s.length = 0 then [⟨k, msg⟩]
      else if 100 < s.length then [⟨k, "Name too long"⟩] else []
  | some _ => [⟨k, "Invalid type"⟩]

/-- Check `z.boolean().refine(val => val === true, msg)` applied to the value
at key `k` (the refinement runs only on a well-typed boolean). -/
def checkTrueField (k msg : String) (r : JRecord) : List Issue :=
  match jget r k with
  | none => [⟨k, "Required"⟩]
  | some (.bool true) => []
  | some (.bool false) => [⟨k, msg⟩]
  | some _ => [⟨k, "Invalid type"⟩]

/-- The thirteen declared submission fields, in schema declaration
order. -/
def declaredKeys : List String :=
  ["aadhaarNumber", "entrepreneurName", "consent", "otp", "otpVerified",
   "organisationType", "panNumber", "panHolderName", "dob", "panConsent",
   "pincode", "state", "city"]

/-- Issues contributed by one field of the inline `POST /submit`
schema.  Keys outside the declared thirteen contribute nothing (zod
strips them). -/
def fieldIssuesSubmit (k : String) (r : JRecord) : List Issue :=
  match k with
  | "aadhaarNumber" => checkRegexField "aadhaarNumber" aadhaarMatch "Invalid Aadhaar format" r
  | "entrepreneurName" => checkMin1Field "entrepreneurName" "Entrepreneur name is required" r
  | "consent" => checkTrueField "consent" "Consent is required" r
  | "otp" => checkRegexField "otp" otpMatch "Invalid OTP format" r
  | "otpVerified" => checkTrueField "otpVerified" "OTP must be verified" r
  | "organisationType" => checkMin1Field "organisationType" "Organisation type is required" r
  | "panNumber" => checkRegexField "panNumber" panMatch "Invalid PAN format" r
  | "panHolderName" => checkMin1Field "panHolderName" "PAN holder name is required" r
  | "dob" => checkMin1Field "dob" "Date of birth is required" r
  | "panConsent" => checkTrueField "panConsent" "PAN consent is required" r
  | "pincode" => checkRegexField "pincode" pincodeMatch "Invalid PIN code format" r
  | "state" => checkMin1Field "state" "State is required" r
  | "city" => checkMin1Field "city" "City is required" r
  | _ => []

/-- Issues contributed by one field of the service-class
`submissionSchema` (adds the 100-character cap on the two name
fields). -/
def fieldIssuesService (k : String) (r : JRecord) : List Issue :=
  match k with
  | "entrepreneurName" =>
      checkMin1Max100Field "entrepreneurName" "Entrepreneur name is required" r
  | "panHolderName" =>
      checkMin1Max100Field "panHolderName" "PAN holder name is required" r
  | other => fieldIssuesSubmit other r

/-- All issues of the inline `POST /submit` schema, in declaration
order (zod aggregates per-key issues over the shape). -/
def submitIssues (r : JRecord) : List Issue :=
  (declaredKeys.map (fun k => fieldIssuesSubmit k r)).flatten

/-- All issues of the service-class `submissionSchema`, in declaration
order. -/
def serviceIssues (r : JRecord) : List Issue :=
  (declaredKeys.map (fun k => fieldIssuesService k r)).flatten

/-- The parsed (validated, stripped) submission record: exactly the
thirteen declared fields, nothing else. -/
structure SubmissionData where
  aadhaarNumber : String
  entrepreneurName : String
  consent : Bool
  otp : String
  otpVerified : Bool
  organisationType : String
  panNumber : String
  panHolderName : String
  dob : String
  panConsent : Bool
  pincode : String
  state : String
  city : String
deriving DecidableEq, Repr

/-- String projection used when building `parsed.data` (only reached on
records whose issues list is empty, so the defaults never fire). -/
def getStr (r : JRecord) (k : String) : String :=
  match jget r k with
  | some (.str s) => s
  | _ => ""

/-- Boolean projection used when building `parsed.data`. -/
def getBool (r : JRecord) (k : String) : Bool :=
  match jget r k with
  | some (.bool b) => b
  | _ => false

/-- Value `parsed.data` of a successful zod parse: the declared fields, read
from the input record. -/
def extract (r : JRecord) : SubmissionData where
  aadhaarNumber := getStr r "aadhaarNumber"
  entrepreneurName := getStr r "entrepreneurName"
  consent := getBool r "consent"
  otp := getStr r "otp"
  otpVerified := getBool r "otpVerified"
  organisationType := getStr r "organisationType"
  panNumber := getStr r "panNumber"
  panHolderName := getStr r "panHolderName"
  dob := getStr r "dob"
  panConsent := getBool r "panConsent"
  pincode := getStr r "pincode"
  state := getStr r "state"
  city := getStr r "city"

/-- The validated record rendered back as a JSON object, to speak about
which keys the result carries. -/
def dataPairs (d : SubmissionData) : JRecord :=
  [("aadhaarNumber", .str d.aadhaarNumber),
   ("entrepreneurName", .str d.entrepreneurName),
   ("consent", .bool d.consent),
   ("otp", .str d.otp),
   ("otpVerified", .bool d.otpVerified),
   ("organisationType", .str d.organisationType),
   ("panNumber", .str d.panNumber),
   ("panHolderName", .str d.panHolderName),
   ("dob", .str d.dob),
   ("panConsent", .bool d.panConsent),
   ("pincode", .str d.pincode),
   ("state", .str d.state),
   ("city", .str d.city)]

/-- Result of `ValidationService.validateSubmission`: `{valid: true,
data}` or `{valid: false, error: "Validation failed", details}`. -/
inductive ValidateOutcome where
  | valid (data : SubmissionData)
  | invalid (details : List Issue)
deriving DecidableEq, Repr

/-- Method `ValidationService.validateSubmission` (service-class schema). -/
def validateSubmission (r : JRecord) : ValidateOutcome :=
  if serviceIssues r = [] then .valid (extract r) else .invalid (serviceIssues r)

/-- Response of the `POST /submit` handler: HTTP 400 with the
aggregated issue list, HTTP 202 `{stored: false, data}` when the
persistence client is unavailable, or HTTP 200 `{stored: true, id}`
after storing the parsed fields (plus a constant pending status). -/
inductive SubmitResponse where
  | validationError (details : List Issue)
  | notStored (data : SubmissionData)
  | stored (data : SubmissionData)
deriving DecidableEq, Repr

/-- The `POST /submit` handler: parse with the inline schema; on
failure answer 400 with all issues; otherwise store the parsed data
when a persistence client is available, else acknowledge without
storing, echoing the parsed data. -/
def submitHandler (r : JRecord) (prismaAvailable : Bool) : SubmitResponse :=
  if submitIssues r = [] then
    if prismaAvailable then .stored (extract r) else .notStored (extract r)
  else .validationError (submitIssues r)

/-- The fully valid example payload of the specification's end-to-end
property. -/
def validPayload : JRecord :=
  [("aadhaarNumber", .str "234567890123"),
   ("entrepreneurName", .str "A"),
   ("consent", .bool true),
   ("otp", .str "123456"),
   ("otpVerified", .bool true),
   ("organisationType", .str "proprietary"),
   ("panNumber", .str "ABCDE1234F"),
   ("panHolderName", .str "A"),
   ("dob", .str "1990-01-01"),
   ("panConsent", .bool true),
   ("pincode", .str "560011"),
   ("state", .str "Karnataka"),
   ("city", .str "Bangalore")]

/-! ### Field schema model (`schema/src/index.ts`) and providers -/

/-- Model of `FieldValidation`: optional per-field constraints. -/
structure FieldValidation where
  required : Option Bool := none
  minLength : Option Nat := none
  maxLength : Option Nat := none
  pattern : Option String := none
  helpText : Option String := none
deriving DecidableEq, Repr

/-- Model of `FormField`: one form control (the input kind is kept as its JSON
string). -/
structure FormField where
  id : String
  name : String
  label : String
  placeholder : Option String := none
  type : String
  validation : Option FieldValidation := none
deriving DecidableEq, Repr

/-- Model of `FormSchema`: one registration step. -/
structure FormSchema where
  title : String
  step : Nat
  fields : List FormField
deriving DecidableEq, Repr

/-- The hand-authored static `step1Schema` of the shared schema
package. -/
def step1Schema : FormSchema where
  title := "Udyam Registration - Step 1 (Aadhaar & OTP)"
  step := 1
  fields :=
    [{ id := "aadhaarNumber", name := "aadhaarNumber", label := "Aadhaar Number",
       placeholder := some "Enter 12-digit Aadhaar", type := "tel",
       validation := some { required := some true,
                            minLength := some 12,
                            maxLength := some 12,
                            pattern := some "^[2-9][0-9]\x7b11\x7d$",
                            helpText := some "12 digits; must start with 2-9" } },
     { id := "mobileNumber", name := "mobileNumber",
       label := "Mobile Number (linked to Aadhaar)",
       placeholder := some "Enter 10-digit mobile", type := "tel",
       validation := some { required := some true,
                            minLength := some 10,
                            maxLength := some 10,
                            pattern := some "^[6-9][0-9]\x7b9\x7d$" } },
     { id := "otp", name := "otp", label := "OTP",
       placeholder := some "Enter 6-digit OTP", type := "otp",
       validation := some { required := some true,
                            minLength := some 6,
                            maxLength := some 6,
                            pattern := some "^[0-9]\x7b6\x7d$" } }]

/-- The hand-authored static `step2Schema` of the shared schema
package. -/
def step2Schema : FormSchema where
  title := "Udyam Registration - Step 2 (PAN Validation)"
  step := 2
  fields :=
    [{ id := "panNumber", name := "panNumber", label := "PAN Number",
       placeholder := some "ABCDE1234F", type := "text",
       validation := some { required := some true,
                            minLength := some 10,
                            maxLength := some 10,
                            pattern := some "^[A-Z]\x7b5\x7d[0-9]\x7b4\x7d[A-Z]\x7b1\x7d$",
                            helpText := some "Format: [A-Z]\x7b5\x7d[0-9]\x7b4\x7d[A-Z]" } },
     { id := "pincode", name := "pincode", label := "PIN Code",
       placeholder := some "6-digit PIN", type := "tel",
       validation := some { required := some false,
                            minLength := some 6,
                            maxLength := some 6,
                            pattern := some "^[0-9]\x7b6\x7d$" } },
     { id := "state", name := "state", label := "State", type := "text",
       validation := some { required := some false } },
     { id := "city", name := "city", label := "City", type := "text",
       validation := some { required := some false } }]

/-- Function `createFallback` of `scraper/src/scrape-step2.ts`: the hand-authored
step-2 default document the scraper writes when its relevance filter
comes back empty. -/
def createFallback : FormSchema where
  title := "Udyam Registration - Step 2 (PAN Validation)"
  step := 2
  fields :=
    [{ id := "panNumber", name := "panNumber", label := "PAN Number",
       placeholder := some "ABCDE1234F", type := "text",
       validation := some { required := some true,
                            minLength := some 10,
                            maxLength := some 10,
                            pattern := some "^[A-Z]\x7b5\x7d[0-9]\x7b4\x7d[A-Z]\x7b1\x7d$",
                            helpText := some "Format: [A-Z]\x7b5\x7d[0-9]\x7b4\x7d[A-Z]" } },
     { id := "pincode", name := "pincode", label := "PIN Code",
       placeholder := some "6-digit PIN", type := "tel",
       validation := some { minLength := some 6,
                            maxLength := some 6,
                            pattern := some "^[0-9]\x7b6\x7d$" } },
     { id := "state", name := "state", label := "State", type := "text" },
     { id := "city", name := "city", label := "City", type := "text" }]

/-- Schema selection at the end of the step-2 scraper run:

  fields && fields.length >= 1 ? scraped document : createFallback()

applied to the (already filtered, sorted, capped) field list extracted
from the page. -/
def chooseStep2Schema (fields : List FormField) : FormSchema :=
  if 1 ≤ fields.length then
    { title := "Udyam Registration (scraped)", step := 2, fields := fields }
  else createFallback

/-- What one attempt to read the scraped-schema endpoint can yield for
the frontend: a well-formed cached document (HTTP 200), a miss (HTTP
404, no cache file), or an unreachable endpoint (fetch throws). -/
inductive FetchOutcome where
  | ok (doc : FormSchema)
  | notFound
  | unreachable
deriving DecidableEq, Repr

/-- Function `fetchSchema` of `frontend/src/app/page.tsx`: use the scraped
document when the endpoint answered 200, otherwise (404 or network
failure) fall back to the static schema for the step.  Total: every
outcome produces a `FormSchema`, never an error. -/
def fetchSchema (step : Nat) (outcome : FetchOutcome) : FormSchema :=
  match outcome with
  | .ok doc => doc
  | .notFound => if step = 1 then step1Schema else step2Schema
  | .unreachable => if step = 1 then step1Schema else step2Schema

/-- The valid payload with the first consent withheld (checkbox left
unticked serialises as `false`). -/
def noConsentPayload : JRecord :=
  [("aadhaarNumber", .str "234567890123"),
   ("entrepreneurName", .str "A"),
   ("consent", .bool false),
   ("otp", .str "123456"),
   ("otpVerified", .bool true),
   ("organisationType", .str "proprietary"),
   ("panNumber", .str "ABCDE1234F"),
   ("panHolderName", .str "A"),
   ("dob", .str "1990-01-01"),
   ("panConsent", .bool true),
   ("pincode", .str "560011"),
   ("state", .str "Karnataka"),
   ("city", .str "Bangalore")]

/-- The valid payload with two fields spoiled at once: an Aadhaar number
starting with 1 and a PAN of the wrong length. -/
def twoBadPayload : JRecord :=
  [("aadhaarNumber", .str "123456789012"),
   ("entrepreneurName", .str "A"),
   ("consent", .bool true),
   ("otp", .str "123456"),
   ("otpVerified", .bool true),
   ("organisationType", .str "proprietary"),
   ("panNumber", .str "BADPAN"),
   ("panHolderName", .str "A"),
   ("dob", .str "1990-01-01"),
   ("panConsent", .bool true),
   ("pincode", .str "560011"),
   ("state", .str "Karnataka"),
   ("city", .str "Bangalore")]

/-- The valid payload whose entrepreneur name carries a `javascript:`
scheme prefix: it passes every format rule (the name rule is only
non-emptiness) and exercises the sanitizer question. -/
def xssPayload : JRecord :=
  [("aadhaarNumber", .str "234567890123"),
   ("entrepreneurName", .str "javascript:John"),
   ("consent", .bool true),
   ("otp", .str "123456"),
   ("otpVerified", .bool true),
   ("organisationType", .str "proprietary"),
   ("panNumber", .str "ABCDE1234F"),
   ("panHolderName", .str "A"),
   ("dob", .str "1990-01-01"),
   ("panConsent", .bool true),
   ("pincode", .str "560011"),
   ("state", .str "Karnataka"),
   ("city", .str "Bangalore")]

/-- The valid payload with an extra, undeclared key in front. -/
def extraKeyPayload : JRecord :=
  ("extra", .str "ignored") :: validPayload

/-- The claim's characterisation of an accepted Aadhaar value: the
string consists of exactly twelve digits and its first digit lies in
2-9. -/
def AadhaarShaped (s : String) : Prop :=
  s.data.length = 12 ∧ (∀ c ∈ s.data, isDigitChar c = true) ∧
    ∃ c rest, s.data = c :: rest ∧ '2' ≤ c ∧ c ≤ '9'

end Udyam

namespace Udyam

/- Sanity checks: the jest fixtures of the repository test suite and a
few validator facts. -/
example : (validateAadhaar "234567890123").valid = true := by decide
example : (validateAadhaar "123456789012").valid = false := by decide
example : (validatePAN "ABCDE1234F").valid = true := by decide
example : (validatePAN "abcde1234f").valid = false := by decide
example : (validateOTP "123456").valid = true := by decide
example : sanitizeString "<script>alert(\"xss\")</script>John Doe" = "John Doe" := by decide
example :
    sanitizeString "John Doe<img src=\"x\" onerror=\"alert(1)\">"
      = "John Doe<img src=\"x\" \"alert(1)\">" := by decide
example : sanitizeString "javascript:alert(\"xss\")" = "alert(\"xss\")" := by decide
example : sanitizeString "+91-98765-43210" = "+91-98765-43210" := by decide
example : submitIssues validPayload = [] := by decide
example : serviceIssues validPayload = [] := by decide

end Udyam

namespace Udyam

/-- The Bool-valued `valid` flag of `validateAadhaar` is exactly the
regex test. -/
theorem validateAadhaar_valid_eq (s : String) :
    (validateAadhaar s).valid = aadhaarMatch s := by
  by_cases h : aadhaarMatch s <;> simp [validateAadhaar, h]

/-- C1: for every string `s`, `validateAadhaar s` reports `valid = true`
exactly when `s` consists of twelve digits whose first digit lies in
2-9 (the anchored regex `[2-9][0-9]` with eleven digit repetitions);
every other string, including the empty, short, long or non-numeric
ones, yields `valid = false`. -/
theorem validateAadhaar_valid_iff (s : String) :
    (validateAadhaar s).valid = true ↔ AadhaarShaped s := by
  rw [validateAadhaar_valid_eq]
  obtain ⟨l⟩ := s
  show aadhaarMatch ⟨l⟩ = true ↔ AadhaarShaped ⟨l⟩
  unfold aadhaarMatch AadhaarShaped
  cases l with
  | nil => simp
  | cons c rest =>
    simp only [List.length_cons, Bool.and_eq_true, decide_eq_true_eq, List.all_eq_true,
      List.mem_cons]
    constructor
    · rintro ⟨⟨⟨h2, h9⟩, hlen⟩, hall⟩
      refine ⟨by omega, ?_, c, rest, rfl, h2, h9⟩
      intro x hx
      rcases hx with rfl | hx
      · have h0 : '0' ≤ x := le_trans (by decide) h2
        simp [isDigitChar, h0, h9]
      · exact hall x hx
    · rintro ⟨hlen, hdig, c', rest', heq, h2, h9⟩
      obtain ⟨rfl, rfl⟩ : c = c' ∧ rest = rest' := by
        injection heq with hc hr
        exact ⟨hc, hr⟩
      refine ⟨⟨⟨h2, h9⟩, by omega⟩, fun x hx => hdig x (Or.inr hx)⟩

/-- C9: for every non-empty string that fails the PAN regex,
`validatePAN` reports invalid with exactly the message naming the
expected format. -/
theorem validatePAN_error_message (s : String) (_hne : s ≠ "")
    (h : panMatch s = false) :
    validatePAN s = ⟨false, some "Invalid PAN format. Expected: ABCDE1234F"⟩ := by
  simp [validatePAN, h]

/-- Witness for C9 at the spec's own bad PAN. -/
theorem validatePAN_error_message_witness :
    validatePAN "BADPAN0000X" = ⟨false, some "Invalid PAN format. Expected: ABCDE1234F"⟩ :=
  validatePAN_error_message "BADPAN0000X" (by decide) (by decide)

end Udyam

namespace Udyam

/-- Everything the consent check of the submission schema can produce
carries the `consent` field path, and the check only passes on a
literal boolean `true`. -/
theorem checkTrueField_consent (r : JRecord)
    (h : jget r "consent" ≠ some (.bool true)) :
    ∃ i ∈ checkTrueField "consent" "Consent is required" r, i.path = "consent" := by
  cases hg : jget r "consent" with
  | none => exact ⟨⟨"consent", "Required"⟩, by simp [checkTrueField, hg], rfl⟩
  | some v =>
    cases v with
    | str s => exact ⟨⟨"consent", "Invalid type"⟩, by simp [checkTrueField, hg], rfl⟩
    | bool b =>
      cases b with
      | false =>
        exact ⟨⟨"consent", "Consent is required"⟩, by simp [checkTrueField, hg], rfl⟩
      | true => exact absurd hg h
    | num n => exact ⟨⟨"consent", "Invalid type"⟩, by simp [checkTrueField, hg], rfl⟩
    | null => exact ⟨⟨"consent", "Invalid type"⟩, by simp [checkTrueField, hg], rfl⟩
    | other => exact ⟨⟨"consent", "Invalid type"⟩, by simp [checkTrueField, hg], rfl⟩

/-- Issues contributed by a declared field all survive into the
aggregated issue list of the service schema. -/
theorem mem_serviceIssues_of_mem_field (r : JRecord) (k : String)
    (hk : k ∈ declaredKeys) {i : Issue} (hi : i ∈ fieldIssuesService k r) :
    i ∈ serviceIssues r := by
  unfold serviceIssues
  rw [List.mem_flatten]
  exact ⟨fieldIssuesService k r, List.mem_map_of_mem _ hk, hi⟩

/-- C3: whenever the `consent` field is absent or anything but the
boolean `true`, `validateSubmission` answers invalid, and its detail
list contains an issue at the `consent` path, regardless of the other
fields. -/
theorem validateSubmission_consent_required (r : JRecord)
    (h : jget r "consent" ≠ some (.bool true)) :
    ∃ details, validateSubmission r = .invalid details ∧
      ∃ i ∈ details, i.path = "consent" := by
  obtain ⟨i, him, hpath⟩ := checkTrueField_consent r h
  have hmem : i ∈ serviceIssues r := by
    refine mem_serviceIssues_of_mem_field r "consent" (by decide) ?_
    exact him
  have hne : serviceIssues r ≠ [] := by
    intro hnil
    rw [hnil] at hmem
    exact absurd hmem (List.not_mem_nil i)
  refine ⟨serviceIssues r, ?_, ⟨i, hmem, hpath⟩⟩
  simp [validateSubmission, hne]

/-- Witness for C3: the otherwise fully valid payload with
`consent = false` is rejected with a consent issue. -/
theorem validateSubmission_consent_required_witness :
    ∃ details, validateSubmission noConsentPayload = .invalid details ∧
      ∃ i ∈ details, i.path = "consent" :=
  validateSubmission_consent_required noConsentPayload (by decide)

/-- C4: every declared field whose check fails contributes all of its
issues to the single invalid result of `validateSubmission`; the
validator aggregates instead of stopping at the first failure. -/
theorem validateSubmission_reports_every_invalid_field (r : JRecord) (k : String)
    (hk : k ∈ declaredKeys) (hbad : fieldIssuesService k r ≠ []) :
    ∃ details, validateSubmission r = .invalid details ∧
      ∀ i ∈ fieldIssuesService k r, i ∈ details := by
  have hsub : ∀ i ∈ fieldIssuesService k r, i ∈ serviceIssues r :=
    fun i hi => mem_serviceIssues_of_mem_field r k hk hi
  have hne : serviceIssues r ≠ [] := by
    obtain ⟨i, hi⟩ := List.exists_mem_of_ne_nil _ hbad
    intro hnil
    have hmem := hsub i hi
    rw [hnil] at hmem
    exact absurd hmem (List.not_mem_nil i)
  exact ⟨serviceIssues r, by simp [validateSubmission, hne], hsub⟩

/-- Witness for C4 at a payload with two spoiled fields: the Aadhaar
issue is reported even though the PAN field is also invalid (and
symmetrically, both checks are non-empty on this record). -/
theorem validateSubmission_reports_every_invalid_field_witness :
    (fieldIssuesService "aadhaarNumber" twoBadPayload ≠ [] ∧
       fieldIssuesService "panNumber" twoBadPayload ≠ []) ∧
      ∃ details, validateSubmission twoBadPayload = .invalid details ∧
        ∀ i ∈ fieldIssuesService "aadhaarNumber" twoBadPayload, i ∈ details :=
  ⟨⟨by decide, by decide⟩,
    validateSubmission_reports_every_invalid_field twoBadPayload "aadhaarNumber"
      (by decide) (by decide)⟩

end Udyam

namespace Udyam

/-- C2: the submission endpoint persists the raw validated values — no
sanitization runs between validation and the persistence sink.  At the
failing input (the valid payload whose entrepreneur name is
`javascript:John`) the record handed to the sink still carries the
`javascript:` scheme, although `sanitizeInput` on that value would have
produced `John`; the repository's own API documentation promises that
all string inputs are sanitized before storage. -/
theorem submitHandler_stores_raw_not_sanitized :
    submitHandler xssPayload true = .stored (extract xssPayload) ∧
      (extract xssPayload).entrepreneurName = "javascript:John" ∧
      sanitizeValue (.str "javascript:John") = .str "John" ∧
      (extract xssPayload).entrepreneurName
        ≠ sanitizeString (getStr xssPayload "entrepreneurName") := by
  refine ⟨by decide, by decide, by decide, by decide⟩

/-- C5: `sanitizeInput` rewrites exactly the string-valued fields of a
record through `sanitizeString` (script-element removal, then
`javascript:` removal, then `on*=` removal, then trim), keeps every
non-string value untouched, and on the spec's examples removes a whole
script element with its content and strips an `onerror=` assignment
while leaving the surrounding tag text. -/
theorem sanitizeInput_field_map :
    (∀ r : JRecord, sanitizeInput r = r.map (fun p => (p.1, sanitizeValue p.2))) ∧
      (∀ s, sanitizeValue (.str s) = .str (sanitizeString s)) ∧
      (∀ b, sanitizeValue (.bool b) = .bool b) ∧
      (∀ n, sanitizeValue (.num n) = .num n) ∧
      sanitizeValue .null = .null ∧
      sanitizeValue .other = .other ∧
      sanitizeString "<script>alert(1)</script>John" = "John" ∧
      sanitizeString "John<img onerror=alert(1)>" = "John<img alert(1)>" := by
  exact ⟨fun r => rfl, fun s => rfl, fun b => rfl, fun n => rfl, rfl, rfl,
    by decide, by decide⟩

/-- C6: when the scraped-schema endpoint is unreachable, or reachable
but without a cached document (404), the frontend schema fetch for step
1 yields the static default step-1 schema, whose field list is
non-empty; the fallback chain is total, so the caller never sees an
error. -/
theorem fetchSchema_step1_fallback :
    fetchSchema 1 .unreachable = step1Schema ∧
      fetchSchema 1 .notFound = step1Schema ∧
      step1Schema.fields ≠ [] ∧
      ∀ (step : Nat) (outcome : FetchOutcome), ∃ doc, fetchSchema step outcome = doc := by
  exact ⟨rfl, rfl, by decide, fun step outcome => ⟨fetchSchema step outcome, rfl⟩⟩

/-- C7: a record that clears the submission schema is never answered
with a validation error: with no persistence client the endpoint
acknowledges explicitly without storing and echoes the validated data;
in particular the spec's end-to-end payload is accepted both with and
without a sink. -/
theorem submitHandler_valid_acknowledged :
    (∀ r : JRecord, submitIssues r = [] →
        submitHandler r false = .notStored (extract r)) ∧
      submitIssues validPayload = [] ∧
      submitHandler validPayload false = .notStored (extract validPayload) ∧
      submitHandler validPayload true = .stored (extract validPayload) := by
  refine ⟨?_, by decide, by decide, by decide⟩
  intro r h
  simp [submitHandler, h]

/-- Witness for C7: the universally quantified clause applied at the
spec's end-to-end payload. -/
theorem submitHandler_valid_acknowledged_witness :
    submitHandler validPayload false = .notStored (extract validPayload) :=
  submitHandler_valid_acknowledged.1 validPayload (by decide)

/-- C8: the step-2 scraper never emits a schema document with an empty
field list — with one or more filtered fields it writes them, and with
zero it writes its hand-authored fallback, which carries exactly the
PAN, pincode, state and city fields. -/
theorem chooseStep2Schema_never_empty :
    (∀ fields : List FormField, (chooseStep2Schema fields).fields ≠ []) ∧
      chooseStep2Schema [] = createFallback ∧
      createFallback.fields.map (fun f => f.name) = ["panNumber", "pincode", "state", "city"] := by
  refine ⟨?_, by decide, by decide⟩
  intro fields
  cases fields with
  | nil => decide
  | cons f t => simp [chooseStep2Schema]

end Udyam

namespace Udyam

/-- A regex-field check reads the record only through the value at its
own key. -/
theorem checkRegexField_congr (r₁ r₂ : JRecord) (k : String) (p : String → Bool)
    (msg : String) (h : jget r₁ k = jget r₂ k) :
    checkRegexField k p msg r₁ = checkRegexField k p msg r₂ := by
  unfold checkRegexField
  rw [h]

/-- A min-length check reads the record only through the value at its
own key. -/
theorem checkMin1Field_congr (r₁ r₂ : JRecord) (k msg : String)
    (h : jget r₁ k = jget r₂ k) :
    checkMin1Field k msg r₁ = checkMin1Field k msg r₂ := by
  unfold checkMin1Field
  rw [h]

/-- A min/max-length check reads the record only through the value at
its own key. -/
theorem checkMin1Max100Field_congr (r₁ r₂ : JRecord) (k msg : String)
    (h : jget r₁ k = jget r₂ k) :
    checkMin1Max100Field k msg r₁ = checkMin1Max100Field k msg r₂ := by
  unfold checkMin1Max100Field
  rw [h]

/-- A literal-true check reads the record only through the value at its
own key. -/
theorem checkTrueField_congr (r₁ r₂ : JRecord) (k msg : String)
    (h : jget r₁ k = jget r₂ k) :
    checkTrueField k msg r₁ = checkTrueField k msg r₂ := by
  unfold checkTrueField
  rw [h]

/-- Each declared field of the service schema is checked against the
record's value at that key alone. -/
theorem fieldIssuesService_congr (r₁ r₂ : JRecord) (k : String)
    (hk : k ∈ declaredKeys) (h : jget r₁ k = jget r₂ k) :
    fieldIssuesService k r₁ = fieldIssuesService k r₂ := by
  simp only [declaredKeys, List.mem_cons, List.not_mem_nil, or_false] at hk
  rcases hk with rfl | rfl | rfl | rfl | rfl | rfl | rfl | rfl | rfl | rfl | rfl | rfl | rfl
  · exact checkRegexField_congr r₁ r₂ _ _ _ h
  · exact checkMin1Max100Field_congr r₁ r₂ _ _ h
  · exact checkTrueField_congr r₁ r₂ _ _ h
  · exact checkRegexField_congr r₁ r₂ _ _ _ h
  · exact checkTrueField_congr r₁ r₂ _ _ h
  · exact checkMin1Field_congr r₁ r₂ _ _ h
  · exact checkRegexField_congr r₁ r₂ _ _ _ h
  · exact checkMin1Max100Field_congr r₁ r₂ _ _ h
  · exact checkMin1Field_congr r₁ r₂ _ _ h
  · exact checkTrueField_congr r₁ r₂ _ _ h
  · exact checkRegexField_congr r₁ r₂ _ _ _ h
  · exact checkMin1Field_congr r₁ r₂ _ _ h
  · exact checkMin1Field_congr r₁ r₂ _ _ h

/-- Each declared field of the inline submit schema is checked against
the record's value at that key alone. -/
theorem fieldIssuesSubmit_congr (r₁ r₂ : JRecord) (k : String)
    (hk : k ∈ declaredKeys) (h : jget r₁ k = jget r₂ k) :
    fieldIssuesSubmit k r₁ = fieldIssuesSubmit k r₂ := by
  simp only [declaredKeys, List.mem_cons, List.not_mem_nil, or_false] at hk
  rcases hk with rfl | rfl | rfl | rfl | rfl | rfl | rfl | rfl | rfl | rfl | rfl | rfl | rfl
  · exact checkRegexField_congr r₁ r₂ _ _ _ h
  · exact checkMin1Field_congr r₁ r₂ _ _ h
  · exact checkTrueField_congr r₁ r₂ _ _ h
  · exact checkRegexField_congr r₁ r₂ _ _ _ h
  · exact checkTrueField_congr r₁ r₂ _ _ h
  · exact checkMin1Field_congr r₁ r₂ _ _ h
  · exact checkRegexField_congr r₁ r₂ _ _ _ h
  · exact checkMin1Field_congr r₁ r₂ _ _ h
  · exact checkMin1Field_congr r₁ r₂ _ _ h
  · exact checkTrueField_congr r₁ r₂ _ _ h
  · exact checkRegexField_congr r₁ r₂ _ _ _ h
  · exact checkMin1Field_congr r₁ r₂ _ _ h
  · exact checkMin1Field_congr r₁ r₂ _ _ h

/-- The aggregated service issues depend only on the values at the
thirteen declared keys. -/
theorem serviceIssues_congr (r₁ r₂ : JRecord)
    (h : ∀ k ∈ declaredKeys, jget r₁ k = jget r₂ k) :
    serviceIssues r₁ = serviceIssues r₂ := by
  unfold serviceIssues
  exact congrArg List.flatten
    (List.map_congr_left fun k hk => fieldIssuesService_congr r₁ r₂ k hk (h k hk))

/-- The aggregated submit issues depend only on the values at the
thirteen declared keys. -/
theorem submitIssues_congr (r₁ r₂ : JRecord)
    (h : ∀ k ∈ declaredKeys, jget r₁ k = jget r₂ k) :
    submitIssues r₁ = submitIssues r₂ := by
  unfold submitIssues
  exact congrArg List.flatten
    (List.map_congr_left fun k hk => fieldIssuesSubmit_congr r₁ r₂ k hk (h k hk))

/-- The parsed data is read from the declared keys alone. -/
theorem extract_congr (r₁ r₂ : JRecord)
    (h : ∀ k ∈ declaredKeys, jget r₁ k = jget r₂ k) :
    extract r₁ = extract r₂ := by
  unfold extract getStr getBool
  rw [h "aadhaarNumber" (by decide), h "entrepreneurName" (by decide),
    h "consent" (by decide), h "otp" (by decide), h "otpVerified" (by decide),
    h "organisationType" (by decide), h "panNumber" (by decide),
    h "panHolderName" (by decide), h "dob" (by decide), h "panConsent" (by decide),
    h "pincode" (by decide), h "state" (by decide), h "city" (by decide)]

/-- C10: a successful parse carries exactly the thirteen declared
fields: any validated record rendered back to JSON has precisely the
declared key list; validation and the submit endpoint are insensitive
to keys outside the declared thirteen; and concretely, the valid
payload with an undeclared extra key parses to the same stripped data
as the payload without it, which is what the endpoint echoes back. -/
theorem submission_strips_extra_keys :
    (∀ d : SubmissionData, (dataPairs d).map Prod.fst = declaredKeys) ∧
      (∀ r₁ r₂ : JRecord, (∀ k ∈ declaredKeys, jget r₁ k = jget r₂ k) →
        validateSubmission r₁ = validateSubmission r₂ ∧
          ∀ pa : Bool, submitHandler r₁ pa = submitHandler r₂ pa) ∧
      validateSubmission extraKeyPayload = .valid (extract validPayload) ∧
      submitHandler extraKeyPayload false = .notStored (extract validPayload) := by
  refine ⟨fun d => rfl, ?_, by decide, by decide⟩
  intro r₁ r₂ h
  have hs := serviceIssues_congr r₁ r₂ h
  have hb := submitIssues_congr r₁ r₂ h
  have he := extract_congr r₁ r₂ h
  constructor
  · unfold validateSubmission
    rw [hs, he]
  · intro pa
    unfold submitHandler
    rw [hb, he]

/-- Witness for C10: insensitivity applied at the extra-key payload
against the plain valid payload. -/
theorem submission_strips_extra_keys_witness :
    validateSubmission extraKeyPayload = validateSubmission validPayload ∧
      submitHandler extraKeyPayload false = submitHandler validPayload false := by
  have h := submission_strips_extra_keys.2.1 extraKeyPayload validPayload (by decide)
  exact ⟨h.1, h.2 false⟩

end Udyam
